import Mathlib

/-!
Shallow embedding of the DB-project CRUD backend (Go + gin + database/sql +
PostgreSQL).  The latest version of the source (src/unnamed/part_000) is the
authority: it has the three resources (trains, planes, history), the CORS
middleware and the delete handlers; the earlier src/main.go version contains
textually identical `getAllTrains`, `insertTrain`, `deleteTrain` and
`handleDBError` functions.

The database is modelled as three in-memory tables with a SERIAL counter; a
possible connectivity fault makes every SQL call fail with a given error text,
mirroring driver errors.  A DELETE whose WHERE column is not a column of the
table fails with the PostgreSQL "column does not exist" error, which is what
`deleteHistory`'s query (`DELETE FROM history WHERE history = $1`) triggers.

JSON bodies and responses are modelled by `JValue`.  Decoding follows Go's
`encoding/json` semantics as exercised by `gin.Context.BindJSON` on the
`Train`/`Plane`/`History` structs: absent keys leave the zero value, a JSON
null leaves the field untouched, a negative number cannot be unmarshalled
into a `uint` field, and type mismatches produce `UnmarshalTypeError` texts.
Go's `var xs []T` followed by `append` in the row loop yields a nil slice when
no row was scanned, and `json.Marshal` of a nil slice is `null`; `marshalSlice`
reproduces this.
-/

/-- Model of a JSON value (the subset exchanged by this service). -/
inductive JValue where
  | null : JValue
  | str : String → JValue
  | num : Int → JValue
  | arr : List JValue → JValue
  | obj : List (String × JValue) → JValue

/-- Shared shape of the Go structs `Train`, `Plane` and `History`
(src/unnamed/part_000 lines 15-31): fields `ID`, `Name`, `Price`, all three
structs identical up to their JSON tags.  Go's `uint` fields are modelled by
`Nat`. -/
structure Record where
  ID : Nat
  Name : String
  Price : Nat
deriving DecidableEq

abbrev Train := Record
abbrev Plane := Record
abbrev History := Record

/-- One database table: its schema (identifier, name and price column names,
as declared by the CREATE TABLE statements), its rows, and the next value of
the SERIAL identifier sequence. -/
structure Table where
  idCol : String
  nameCol : String
  priceCol : String
  rows : List Record
  nextId : Nat

/-- Models `createTrainsTable`: CREATE TABLE IF NOT EXISTS trains
(train_id SERIAL PRIMARY KEY, train_name VARCHAR(100) NOT NULL,
train_price INTEGER NOT NULL); a fresh SERIAL sequence starts at 1. -/
def createTrainsTable : Table :=
  { idCol := "train_id", nameCol := "train_name", priceCol := "train_price"
    rows := [], nextId := 1 }

/-- Models `createPlanesTable` (plane_id, plane_name, plane_price). -/
def createPlanesTable : Table :=
  { idCol := "plane_id", nameCol := "plane_name", priceCol := "plane_price"
    rows := [], nextId := 1 }

/-- Models `createHistoryTable` (history_id, history_name, history_price). -/
def createHistoryTable : Table :=
  { idCol := "history_id", nameCol := "history_name", priceCol := "history_price"
    rows := [], nextId := 1 }

/-- The shared `db *sql.DB` handle together with the persisted tables.
`fault = some e` models a storage failure (connectivity loss, etc.): every
SQL call returns the error `e`. -/
structure Db where
  fault : Option String
  trains : Table
  planes : Table
  history : Table

/-- The freshly initialised database: all three tables created and empty,
storage healthy. -/
def db0 : Db :=
  { fault := none, trains := createTrainsTable, planes := createPlanesTable
    history := createHistoryTable }

/-- `db.Query("SELECT * FROM t")` followed by the row-scanning loop: on a
healthy connection it yields the rows; on a faulted one it yields the error. -/
def sqlSelectAll (fault : Option String) (t : Table) : Except String (List Record) :=
  match fault with
  | some e => Except.error e
  | none => Except.ok t.rows

/-- `db.Exec("INSERT INTO t (nameCol, priceCol) VALUES ($1, $2)", name, price)`:
the storage assigns the SERIAL identifier `t.nextId` to the new row and bumps
the sequence. -/
def sqlInsert (fault : Option String) (t : Table) (name : String) (price : Nat) :
    Except String Table :=
  match fault with
  | some e => Except.error e
  | none =>
      Except.ok { t with rows := t.rows ++ [⟨t.nextId, name, price⟩]
                         nextId := t.nextId + 1 }

/-- `db.Exec("DELETE FROM t WHERE col = $1", idVal)`.  PostgreSQL resolves the
WHERE column against the table's schema: matching on the identifier column
removes the rows with that identifier; matching on another existing column
compares that column's value (the text parameter is cast as needed); naming a
column that does not exist fails the statement with the driver error
`pq: column \x22col\x22 does not exist`. -/
def sqlDeleteWhereEq (fault : Option String) (t : Table) (col : String) (idVal : Nat) :
    Except String Table :=
  match fault with
  | some e => Except.error e
  | none =>
      if col = t.idCol then
        Except.ok { t with rows := t.rows.filter (fun r => r.ID != idVal) }
      else if col = t.nameCol then
        Except.ok { t with rows := t.rows.filter (fun r => r.Name != toString idVal) }
      else if col = t.priceCol then
        Except.ok { t with rows := t.rows.filter (fun r => r.Price != idVal) }
      else
        Except.error ("pq: column \"" ++ col ++ "\" does not exist")

/-- An HTTP response: status code, headers, and an optional JSON body
(`none` is an empty body, as written by `AbortWithStatus`). -/
structure Response where
  status : Nat
  headers : List (String × String)
  body : Option JValue

/-- The result of running one handler: the database afterwards, the response,
and the lines written to the server-side log. -/
abbrev HResult := Db × Response × List String

/-- A one-field JSON object, as built by `gin.H\x7b key: value\x7d`. -/
def jmsg (key value : String) : JValue := JValue.obj [(key, JValue.str value)]

/-- Models `handleDBError` (src/unnamed/part_000 lines 258-261): log the
underlying error server-side, answer 500 with the fixed generic body
`\x7b"error": "Database error"\x7d`. -/
def handleDBError (db : Db) (e : String) : HResult :=
  (db, ⟨500, [], some (jmsg "error" "Database error")⟩, ["Database error: " ++ e])

/-- Serialisation of one record by `c.JSON`, using the struct's JSON tags. -/
def rowToJson (idKey nameKey priceKey : String) (r : Record) : JValue :=
  JValue.obj [(idKey, JValue.num (Int.ofNat r.ID)),
              (nameKey, JValue.str r.Name),
              (priceKey, JValue.num (Int.ofNat r.Price))]

/-- Go's `var xs []T` + `append` loop leaves a nil slice when no row was
scanned, and `json.Marshal` of a nil slice is JSON `null`; otherwise the
non-empty slice marshals to a JSON array. -/
def marshalSlice (elems : List JValue) : JValue :=
  match elems with
  | [] => JValue.null
  | es => JValue.arr es

/-- UnmarshalTypeError text for a JSON number that does not fit the target. -/
def unmarshalNumErr (n : Int) (structName fieldKey fieldTy : String) : String :=
  "json: cannot unmarshal number " ++ toString n ++ " into Go struct field "
    ++ structName ++ "." ++ fieldKey ++ " of type " ++ fieldTy

/-- UnmarshalTypeError text for a JSON value of the wrong kind. -/
def unmarshalKindErr (kind structName fieldKey fieldTy : String) : String :=
  "json: cannot unmarshal " ++ kind ++ " into Go struct field "
    ++ structName ++ "." ++ fieldKey ++ " of type " ++ fieldTy

/-- `encoding/json` decoding of one JSON value into a `uint` struct field:
a non-negative number is accepted, a negative number cannot be unmarshalled
into `uint`, JSON null leaves the field untouched, any other kind is a type
error. -/
def setUintField (structName fieldKey : String) (v : JValue) (cur : Nat) :
    Except String Nat :=
  match v with
  | JValue.num n =>
      if n < 0 then Except.error (unmarshalNumErr n structName fieldKey "uint")
      else Except.ok n.toNat
  | JValue.null => Except.ok cur
  | JValue.str _ => Except.error (unmarshalKindErr "string" structName fieldKey "uint")
  | JValue.arr _ => Except.error (unmarshalKindErr "array" structName fieldKey "uint")
  | JValue.obj _ => Except.error (unmarshalKindErr "object" structName fieldKey "uint")

/-- `encoding/json` decoding of one JSON value into a `string` struct field. -/
def setStringField (structName fieldKey : String) (v : JValue) (cur : String) :
    Except String String :=
  match v with
  | JValue.str s => Except.ok s
  | JValue.null => Except.ok cur
  | JValue.num n => Except.error (unmarshalNumErr n structName fieldKey "string")
  | JValue.arr _ => Except.error (unmarshalKindErr "array" structName fieldKey "string")
  | JValue.obj _ => Except.error (unmarshalKindErr "object" structName fieldKey "string")

/-- `encoding/json` object decoding into a `Train`/`Plane`/`History` struct:
walk the object's members in order, store the ones whose key is a JSON tag of
the struct, ignore unknown keys, stop at the first type error.  Keys that
never appear leave the Go zero value in place. -/
def decodeRecordFields (structName idKey nameKey priceKey : String) :
    List (String × JValue) → Record → Except String Record
  | [], acc => Except.ok acc
  | (k, v) :: rest, acc =>
      if k = idKey then
        match setUintField structName idKey v acc.ID with
        | Except.error e => Except.error e
        | Except.ok n => decodeRecordFields structName idKey nameKey priceKey rest { acc with ID := n }
      else if k = nameKey then
        match setStringField structName nameKey v acc.Name with
        | Except.error e => Except.error e
        | Except.ok s => decodeRecordFields structName idKey nameKey priceKey rest { acc with Name := s }
      else if k = priceKey then
        match setUintField structName priceKey v acc.Price with
        | Except.error e => Except.error e
        | Except.ok n => decodeRecordFields structName idKey nameKey priceKey rest { acc with Price := n }
      else
        decodeRecordFields structName idKey nameKey priceKey rest acc

/-- The outcome of reading and parsing the request body: `Except.error e`
is malformed JSON (the parse error `e` produced by the decoder),
`Except.ok members` is a well-formed JSON object. -/
abbrev BodyInput := Except String (List (String × JValue))

/-- `c.BindJSON(&newTrain)`: a malformed body propagates the decoder's error;
a well-formed object is decoded field by field into the zero `Train`. -/
def decodeTrain (b : BodyInput) : Except String Train :=
  match b with
  | Except.error e => Except.error e
  | Except.ok members =>
      decodeRecordFields "Train" "train_id" "train_name" "train_price" members ⟨0, "", 0⟩

/-- `c.BindJSON(&newPlane)`. -/
def decodePlane (b : BodyInput) : Except String Plane :=
  match b with
  | Except.error e => Except.error e
  | Except.ok members =>
      decodeRecordFields "Plane" "plane_id" "plane_name" "plane_price" members ⟨0, "", 0⟩

/-- `c.BindJSON(&newHistory)`. -/
def decodeHistory (b : BodyInput) : Except String History :=
  match b with
  | Except.error e => Except.error e
  | Except.ok members =>
      decodeRecordFields "History" "history_id" "history_name" "history_price" members ⟨0, "", 0⟩

/-- Models `getAllTrains` (src/unnamed/part_000 lines 163-182, identical in
src/main.go lines 100-119): SELECT * FROM trains, scan every row into the
slice `trains` (nil before the first append), answer 200 with its JSON
marshalling; a query or scan error goes to `handleDBError`. -/
def getAllTrains (db : Db) : HResult :=
  match sqlSelectAll db.fault db.trains with
  | Except.error e => handleDBError db e
  | Except.ok rows =>
      (db, ⟨200, [], some (marshalSlice (rows.map (rowToJson "train_id" "train_name" "train_price")))⟩, [])

/-- Models `getAllPlanes`. -/
def getAllPlanes (db : Db) : HResult :=
  match sqlSelectAll db.fault db.planes with
  | Except.error e => handleDBError db e
  | Except.ok rows =>
      (db, ⟨200, [], some (marshalSlice (rows.map (rowToJson "plane_id" "plane_name" "plane_price")))⟩, [])

/-- Models `getHistory`. -/
def getHistory (db : Db) : HResult :=
  match sqlSelectAll db.fault db.history with
  | Except.error e => handleDBError db e
  | Except.ok rows =>
      (db, ⟨200, [], some (marshalSlice (rows.map (rowToJson "history_id" "history_name" "history_price")))⟩, [])

/-- Models `insertTrain` (src/unnamed/part_000 lines 226-240, identical in
src/main.go lines 142-156): BindJSON failure answers 400 echoing the decode
error; otherwise INSERT (train_name, train_price) — the Exec result is
discarded — and answer 201 with a fixed confirmation message. -/
def insertTrain (db : Db) (body : BodyInput) : HResult :=
  match decodeTrain body with
  | Except.error e => (db, ⟨400, [], some (jmsg "error" e)⟩, [])
  | Except.ok newTrain =>
      match sqlInsert db.fault db.trains newTrain.Name newTrain.Price with
      | Except.error e => handleDBError db e
      | Except.ok t =>
          ({ db with trains := t },
           ⟨201, [], some (jmsg "message" "Train created successfully")⟩, [])

/-- Models `insertPlane`. -/
def insertPlane (db : Db) (body : BodyInput) : HResult :=
  match decodePlane body with
  | Except.error e => (db, ⟨400, [], some (jmsg "error" e)⟩, [])
  | Except.ok newPlane =>
      match sqlInsert db.fault db.planes newPlane.Name newPlane.Price with
      | Except.error e => handleDBError db e
      | Except.ok t =>
          ({ db with planes := t },
           ⟨201, [], some (jmsg "message" "Plane created successfully")⟩, [])

/-- Models `insertHistory` (src/unnamed/part_000 lines 143-157). -/
def insertHistory (db : Db) (body : BodyInput) : HResult :=
  match decodeHistory body with
  | Except.error e => (db, ⟨400, [], some (jmsg "error" e)⟩, [])
  | Except.ok newHistory =>
      match sqlInsert db.fault db.history newHistory.Name newHistory.Price with
      | Except.error e => handleDBError db e
      | Except.ok t =>
          ({ db with history := t },
           ⟨201, [], some (jmsg "message" "History added successfully")⟩, [])

/-- Models `deleteTrain` (src/unnamed/part_000 lines 263-271, identical in
src/main.go lines 179-187): DELETE FROM trains WHERE train_id = $1, then 200
with a confirmation message regardless of how many rows matched. -/
def deleteTrain (db : Db) (idVal : Nat) : HResult :=
  match sqlDeleteWhereEq db.fault db.trains "train_id" idVal with
  | Except.error e => handleDBError db e
  | Except.ok t =>
      ({ db with trains := t },
       ⟨200, [], some (jmsg "message" "Train deleted successfully")⟩, [])

/-- Models `deletePlane`: DELETE FROM planes WHERE plane_id = $1. -/
def deletePlane (db : Db) (idVal : Nat) : HResult :=
  match sqlDeleteWhereEq db.fault db.planes "plane_id" idVal with
  | Except.error e => handleDBError db e
  | Except.ok t =>
      ({ db with planes := t },
       ⟨200, [], some (jmsg "message" "Plane deleted successfully")⟩, [])

/-- Models `deleteHistory` (src/unnamed/part_000 lines 273-281).  The source
query is `DELETE FROM history WHERE history = $1`: its WHERE column is the
literal `history`, which is not a column of the history table
(history_id, history_name, history_price). -/
def deleteHistory (db : Db) (idVal : Nat) : HResult :=
  match sqlDeleteWhereEq db.fault db.history "history" idVal with
  | Except.error e => handleDBError db e
  | Except.ok t =>
      ({ db with history := t },
       ⟨200, [], some (jmsg "message" "History deleted successfully")⟩, [])

/-- The four headers set by `corsMiddleware` on every request. -/
def corsHeaders : List (String × String) :=
  [("Access-Control-Allow-Origin", "*"),
   ("Access-Control-Allow-Methods", "GET, POST, PUT, DELETE, OPTIONS"),
   ("Access-Control-Allow-Headers", "Content-Type, Authorization"),
   ("Access-Control-Allow-Credentials", "true")]

/-- Models `corsMiddleware` (src/unnamed/part_000 lines 90-105) wrapped around
a route handler: set the four CORS headers; an OPTIONS request is aborted with
status 200 and an empty body before `c.Next()` runs the handler; any other
method runs the handler and its response carries the headers. -/
def corsMiddleware (method : String) (handler : Db → HResult) (db : Db) : HResult :=
  if method = "OPTIONS" then
    (db, ⟨200, corsHeaders, none⟩, [])
  else
    match handler db with
    | (db1, resp, logLines) =>
        (db1, { resp with headers := corsHeaders ++ resp.headers }, logLines)

/-- A database holding one history row with identifier 7. -/
def dbOneHistoryRow : Db :=
  { db0 with history := { createHistoryTable with rows := [⟨7, "Orient", 3⟩], nextId := 8 } }

/-- C1: the claim says every resource's deleteById answers 200 with a
deletion confirmation even when no row matches.  The code contradicts it:
`DELETE /history/999` on a healthy connection and an empty history table
answers 500 with the generic `Database error` body, because the source query
`DELETE FROM history WHERE history = $1` names the column `history`, which
does not exist; the driver error is only logged. -/
theorem deleteHistory_nonexistent_id_returns_500 :
    deleteHistory db0 999 =
      (db0, ⟨500, [], some (jmsg "error" "Database error")⟩,
       ["Database error: pq: column \"history\" does not exist"]) := rfl

/-- C5: the claim says every deleteById matches the identifier column, so
exactly the row whose identifier equals the given id is removed.  The code
contradicts it: with a history row of identifier 7 present,
`DELETE /history/7` fails with 500 and the database is returned unchanged —
the row stays — because the WHERE column of `deleteHistory`'s query is
`history`, not the identifier column `history_id`. -/
theorem deleteHistory_matching_row_not_removed :
    deleteHistory dbOneHistoryRow 7 =
      (dbOneHistoryRow, ⟨500, [], some (jmsg "error" "Database error")⟩,
       ["Database error: pq: column \"history\" does not exist"]) ∧
    (⟨7, "Orient", 3⟩ : Record) ∈ dbOneHistoryRow.history.rows ∧
    "history" ≠ dbOneHistoryRow.history.idCol :=
  ⟨rfl, by simp [dbOneHistoryRow, db0, createHistoryTable], by decide⟩

/-- C2: on every /add endpoint, a malformed JSON body (a BindJSON decode
error `e`) answers 400 with the decoder's error message echoed back in the
`error` field, and the database is returned exactly unchanged — no insert
happens. -/
theorem add_malformed_json_400_no_insert (e : String) (db : Db) :
    insertTrain db (Except.error e) = (db, ⟨400, [], some (jmsg "error" e)⟩, []) ∧
    insertPlane db (Except.error e) = (db, ⟨400, [], some (jmsg "error" e)⟩, []) ∧
    insertHistory db (Except.error e) = (db, ⟨400, [], some (jmsg "error" e)⟩, []) :=
  ⟨rfl, rfl, rfl⟩

/-- C7: an OPTIONS request to any route — i.e. `corsMiddleware` wrapped
around an arbitrary handler — answers 200 with an empty body and the four
permissive CORS headers, the database unchanged, nothing logged; the result
does not depend on the handler, which is never executed. -/
theorem options_request_short_circuits (handler : Db → HResult) (db : Db) :
    corsMiddleware "OPTIONS" handler db = (db, ⟨200, corsHeaders, none⟩, []) := rfl

/-- C3 counterexample: the claim says listing an empty table answers 200 with
an empty JSON array and not a null value.  On the freshly initialised
database (all tables empty) `GET /trains` does answer 200, but its body is
the JSON value `null` — the marshalling of the still-nil Go slice — which is
not the empty array. -/
theorem listEmpty_body_is_null_not_array :
    getAllTrains db0 = (db0, ⟨200, [], some JValue.null⟩, []) ∧
    JValue.null ≠ JValue.arr [] :=
  ⟨rfl, fun h => JValue.noConfusion h⟩

/-- C3 amended: for every resource, listing an empty table on a healthy
connection answers 200 (not an error), but the body is JSON `null` — the
marshalling of a nil Go slice — rather than an empty array. -/
theorem listAll_empty_table_200_null (db : Db) (hf : db.fault = none)
    (ht : db.trains.rows = []) (hp : db.planes.rows = []) (hh : db.history.rows = []) :
    getAllTrains db = (db, ⟨200, [], some JValue.null⟩, []) ∧
    getAllPlanes db = (db, ⟨200, [], some JValue.null⟩, []) ∧
    getHistory db = (db, ⟨200, [], some JValue.null⟩, []) := by
  refine ⟨?_, ?_, ?_⟩ <;>
    simp [getAllTrains, getAllPlanes, getHistory, sqlSelectAll, hf, ht, hp, hh, marshalSlice]

/-- Witness for the amended C3 statement at the freshly initialised database. -/
theorem listAll_empty_table_200_null_witness :
    getAllTrains db0 = (db0, ⟨200, [], some JValue.null⟩, []) ∧
    getAllPlanes db0 = (db0, ⟨200, [], some JValue.null⟩, []) ∧
    getHistory db0 = (db0, ⟨200, [], some JValue.null⟩, []) :=
  listAll_empty_table_200_null db0 rfl rfl rfl rfl

/-- C8: whenever the storage fails (every SQL call returns the error `e`),
each of the nine handlers answers 500 with the fixed body
`\x7b"error": "Database error"\x7d` — a constant that does not depend on `e`, so
the storage error text never reaches the client — leaves the database
unchanged, and writes the underlying error to the server-side log only.  For
the insert handlers the body is any one whose decoding succeeded, so that the
SQL statement is actually reached. -/
theorem storage_failure_generic_500 (db : Db) (e : String) (hf : db.fault = some e)
    (idVal : Nat) (bt bp bh : BodyInput) (rt rp rh : Record)
    (hbt : decodeTrain bt = Except.ok rt)
    (hbp : decodePlane bp = Except.ok rp)
    (hbh : decodeHistory bh = Except.ok rh) :
    getAllTrains db = handleDBError db e ∧
    getAllPlanes db = handleDBError db e ∧
    getHistory db = handleDBError db e ∧
    insertTrain db bt = handleDBError db e ∧
    insertPlane db bp = handleDBError db e ∧
    insertHistory db bh = handleDBError db e ∧
    deleteTrain db idVal = handleDBError db e ∧
    deletePlane db idVal = handleDBError db e ∧
    deleteHistory db idVal = handleDBError db e ∧
    handleDBError db e =
      (db, ⟨500, [], some (jmsg "error" "Database error")⟩, ["Database error: " ++ e]) := by
  refine ⟨?_, ?_, ?_, ?_, ?_, ?_, ?_, ?_, ?_, rfl⟩ <;>
    simp [getAllTrains, getAllPlanes, getHistory, insertTrain, insertPlane, insertHistory,
      deleteTrain, deletePlane, deleteHistory, sqlSelectAll, sqlInsert, sqlDeleteWhereEq,
      hf, hbt, hbp, hbh]

/-- Witness for C8 on a faulted database, with the empty JSON object as the
insert bodies. -/
theorem storage_failure_generic_500_witness :
    (getAllTrains { db0 with fault := some "connection refused" } =
      handleDBError { db0 with fault := some "connection refused" } "connection refused" ∧
     getAllPlanes { db0 with fault := some "connection refused" } =
      handleDBError { db0 with fault := some "connection refused" } "connection refused" ∧
     getHistory { db0 with fault := some "connection refused" } =
      handleDBError { db0 with fault := some "connection refused" } "connection refused" ∧
     insertTrain { db0 with fault := some "connection refused" } (Except.ok []) =
      handleDBError { db0 with fault := some "connection refused" } "connection refused" ∧
     insertPlane { db0 with fault := some "connection refused" } (Except.ok []) =
      handleDBError { db0 with fault := some "connection refused" } "connection refused" ∧
     insertHistory { db0 with fault := some "connection refused" } (Except.ok []) =
      handleDBError { db0 with fault := some "connection refused" } "connection refused" ∧
     deleteTrain { db0 with fault := some "connection refused" } 1 =
      handleDBError { db0 with fault := some "connection refused" } "connection refused" ∧
     deletePlane { db0 with fault := some "connection refused" } 1 =
      handleDBError { db0 with fault := some "connection refused" } "connection refused" ∧
     deleteHistory { db0 with fault := some "connection refused" } 1 =
      handleDBError { db0 with fault := some "connection refused" } "connection refused" ∧
     handleDBError { db0 with fault := some "connection refused" } "connection refused" =
      ({ db0 with fault := some "connection refused" },
       ⟨500, [], some (jmsg "error" "Database error")⟩,
       ["Database error: " ++ "connection refused"])) :=
  storage_failure_generic_500 { db0 with fault := some "connection refused" }
    "connection refused" rfl 1 (Except.ok []) (Except.ok []) (Except.ok [])
    ⟨0, "", 0⟩ ⟨0, "", 0⟩ ⟨0, "", 0⟩ rfl rfl rfl

/-- Decoding a well-formed body carrying a name and a non-negative price
succeeds, with the identifier left at its zero value. -/
theorem decodeTrain_name_price_ok (s : String) (p : Nat) :
    decodeTrain (Except.ok [("train_name", JValue.str s),
                            ("train_price", JValue.num (Int.ofNat p))]) =
      Except.ok ⟨0, s, p⟩ := by
  have h : ¬ ((p : Int) < 0) := Int.not_lt.mpr (Int.natCast_nonneg p)
  simp [decodeTrain, decodeRecordFields, setStringField, setUintField, h]

/-- The body of the spec's concrete scenario:
`\x7b"train_name": "Express", "train_price": 50\x7d`. -/
def expressBody : BodyInput :=
  Except.ok [("train_name", JValue.str "Express"), ("train_price", JValue.num 50)]

/-- A database whose trains SERIAL sequence stands at 5. -/
def dbNext5 : Db := { db0 with trains := { createTrainsTable with nextId := 5 } }

/-- C4 counterexample: the claim says a successful insert returns the
identifier generated by storage.  Running the same valid insert on two
databases whose sequences generate different identifiers (1 and 5) produces
literally identical responses — the fixed confirmation message — so the
response cannot contain the generated identifier. -/
theorem insert_response_lacks_generated_id :
    (insertTrain db0 expressBody).2 = (insertTrain dbNext5 expressBody).2 ∧
    (insertTrain db0 expressBody).1.trains.rows = [⟨1, "Express", 50⟩] ∧
    (insertTrain dbNext5 expressBody).1.trains.rows = [⟨5, "Express", 50⟩] ∧
    (insertTrain db0 expressBody).2.1.body =
      some (jmsg "message" "Train created successfully") :=
  ⟨rfl, rfl, rfl, rfl⟩

/-- C4 amended: a valid (name, price) insert on a healthy connection
succeeds — the storage assigns the next SERIAL identifier to the new row —
and the handler answers 201 with only the fixed confirmation message; the
generated identifier is discarded and not part of the response. -/
theorem insert_success_201_message_only (db : Db) (s : String) (p : Nat)
    (hf : db.fault = none) :
    insertTrain db (Except.ok [("train_name", JValue.str s),
                               ("train_price", JValue.num (Int.ofNat p))]) =
      ({ db with trains := { db.trains with
            rows := db.trains.rows ++ [(⟨db.trains.nextId, s, p⟩ : Record)]
            nextId := db.trains.nextId + 1 } },
       ⟨201, [], some (jmsg "message" "Train created successfully")⟩, []) := by
  unfold insertTrain
  rw [decodeTrain_name_price_ok]
  simp [sqlInsert, hf]

/-- Witness for the amended C4 statement: inserting ("Express", 50) into the
fresh database. -/
theorem insert_success_201_message_only_witness :
    insertTrain db0 (Except.ok [("train_name", JValue.str "Express"),
                                ("train_price", JValue.num (Int.ofNat 50))]) =
      ({ db0 with trains := { db0.trains with
            rows := db0.trains.rows ++ [(⟨db0.trains.nextId, "Express", 50⟩ : Record)]
            nextId := db0.trains.nextId + 1 } },
       ⟨201, [], some (jmsg "message" "Train created successfully")⟩, []) :=
  insert_success_201_message_only db0 "Express" 50 rfl

/-- C9 counterexample: the claim says a well-formed body missing the required
name or price field fails decoding with 400 and no insert.  The code
contradicts it: `encoding/json` leaves absent keys at the Go zero value and
reports no error, so POSTing the empty object to /trains/add on the fresh
database inserts the row ("", 0) with identifier 1 and answers 201. -/
theorem missing_fields_insert_succeeds_201 :
    insertTrain db0 (Except.ok []) =
      ({ db0 with trains := { createTrainsTable with rows := [⟨1, "", 0⟩], nextId := 2 } },
       ⟨201, [], some (jmsg "message" "Train created successfully")⟩, []) := rfl

/-- C9 amended: a well-formed JSON body missing name or price decodes
successfully, the absent fields keeping Go's zero values (empty name, zero
price); the insert is performed with those values and the handler answers
201.  Only a malformed body or a wrong-typed field yields 400. -/
theorem missing_fields_decode_zero_values (db : Db) (s : String)
    (hf : db.fault = none) :
    decodeTrain (Except.ok []) = Except.ok ⟨0, "", 0⟩ ∧
    decodeTrain (Except.ok [("train_name", JValue.str s)]) = Except.ok ⟨0, s, 0⟩ ∧
    insertTrain db (Except.ok []) =
      ({ db with trains := { db.trains with
            rows := db.trains.rows ++ [⟨db.trains.nextId, "", 0⟩]
            nextId := db.trains.nextId + 1 } },
       ⟨201, [], some (jmsg "message" "Train created successfully")⟩, []) := by
  refine ⟨rfl, rfl, ?_⟩
  simp [insertTrain, decodeTrain, decodeRecordFields, sqlInsert, hf]

/-- Witness for the amended C9 statement at the fresh database. -/
theorem missing_fields_decode_zero_values_witness :
    decodeTrain (Except.ok []) = Except.ok ⟨0, "", 0⟩ ∧
    decodeTrain (Except.ok [("train_name", JValue.str "Express")]) = Except.ok ⟨0, "Express", 0⟩ ∧
    insertTrain db0 (Except.ok []) =
      ({ db0 with trains := { db0.trains with
            rows := db0.trains.rows ++ [⟨db0.trains.nextId, "", 0⟩]
            nextId := db0.trains.nextId + 1 } },
       ⟨201, [], some (jmsg "message" "Train created successfully")⟩, []) :=
  missing_fields_decode_zero_values db0 "Express" rfl

/-- The marshalling of a slice that just received an append is a JSON array
(the slice is no longer nil). -/
theorem marshalSlice_append_singleton (l : List JValue) (x : JValue) :
    marshalSlice (l ++ [x]) = JValue.arr (l ++ [x]) := by
  cases l <;> rfl

/-- C6: inserting a valid (name, price) payload and then listing the resource
yields a 200 response whose body is a JSON array containing the serialisation
of the inserted record; the record carries the storage-generated identifier
`nextId`, which is fresh — different from every identifier present before the
insert (the freshness hypothesis is the SERIAL-sequence invariant that the
sequence stands above every existing identifier). -/
theorem insert_then_list_contains_fresh_record (db : Db) (s : String) (p : Nat)
    (hf : db.fault = none)
    (hfresh : ∀ r ∈ db.trains.rows, r.ID < db.trains.nextId) :
    (getAllTrains (insertTrain db (Except.ok [("train_name", JValue.str s),
        ("train_price", JValue.num (Int.ofNat p))])).1).2.1 =
      ⟨200, [], some (JValue.arr ((db.trains.rows ++ [(⟨db.trains.nextId, s, p⟩ : Record)]).map
        (rowToJson "train_id" "train_name" "train_price")))⟩ ∧
    rowToJson "train_id" "train_name" "train_price" (⟨db.trains.nextId, s, p⟩ : Record) ∈
      (db.trains.rows ++ [(⟨db.trains.nextId, s, p⟩ : Record)]).map
        (rowToJson "train_id" "train_name" "train_price") ∧
    db.trains.nextId ∉ db.trains.rows.map Record.ID := by
  refine ⟨?_, ?_, ?_⟩
  · rw [insert_success_201_message_only db s p hf]
    simp [getAllTrains, sqlSelectAll, hf, marshalSlice_append_singleton]
  · exact List.mem_map_of_mem _ (List.mem_append_right _ (List.mem_singleton.mpr rfl))
  · intro hmem
    obtain ⟨r, hr, hid⟩ := List.mem_map.mp hmem
    exact absurd (hfresh r hr) (by omega)

/-- Witness for C6: inserting ("Express", 50) into the fresh database and
listing trains afterwards. -/
theorem insert_then_list_contains_fresh_record_witness :
    (getAllTrains (insertTrain db0 (Except.ok [("train_name", JValue.str "Express"),
        ("train_price", JValue.num (Int.ofNat 50))])).1).2.1 =
      ⟨200, [], some (JValue.arr ((db0.trains.rows ++ [(⟨db0.trains.nextId, "Express", 50⟩ : Record)]).map
        (rowToJson "train_id" "train_name" "train_price")))⟩ ∧
    rowToJson "train_id" "train_name" "train_price" (⟨db0.trains.nextId, "Express", 50⟩ : Record) ∈
      (db0.trains.rows ++ [(⟨db0.trains.nextId, "Express", 50⟩ : Record)]).map
        (rowToJson "train_id" "train_name" "train_price") ∧
    db0.trains.nextId ∉ db0.trains.rows.map Record.ID :=
  insert_then_list_contains_fresh_record db0 "Express" 50 rfl (by simp [db0, createTrainsTable])

/-- The numeric values stored under `key` in a JSON object. -/
def objFieldNums (key : String) : JValue → List Int
  | JValue.obj fields =>
      fields.foldr (fun kv acc =>
        match kv.2 with
        | JValue.num n => if kv.1 = key then n :: acc else acc
        | _ => acc) []
  | _ => []

/-- The numeric values stored under `key` in the objects of a JSON array. -/
def arrFieldNums (key : String) : JValue → List Int
  | JValue.arr elems => elems.foldr (fun j acc => objFieldNums key j ++ acc) []
  | _ => []

/-- Every number in a serialised record is the cast of a `Nat` (identifier or
price), hence non-negative, whatever key is asked for. -/
theorem objFieldNums_rowToJson_nonneg (key a b c : String) (r : Record) :
    ∀ m ∈ objFieldNums key (rowToJson a b c r), 0 ≤ m := by
  intro m hm
  simp only [objFieldNums, rowToJson, List.foldr] at hm
  split_ifs at hm <;> simp_all
  rcases hm with h | h <;> simp [h]

/-- Membership in the numbers collected over a JSON array comes from one of
its elements. -/
theorem mem_arrFieldNums (key : String) (elems : List JValue) (m : Int)
    (hm : m ∈ arrFieldNums key (JValue.arr elems)) :
    ∃ j ∈ elems, m ∈ objFieldNums key j := by
  induction elems with
  | nil => simp [arrFieldNums] at hm
  | cons x xs ih =>
      simp only [arrFieldNums, List.foldr] at hm
      rcases List.mem_append.mp hm with h | h
      · exact ⟨x, List.mem_cons_self x xs, h⟩
      · obtain ⟨j, hj, hmj⟩ := ih h
        exact ⟨j, List.mem_cons_of_mem x hj, hmj⟩

/-- Every number found under any key in the marshalled row list of a table is
non-negative. -/
theorem marshal_prices_nonneg (key a b c : String) (rows : List Record) :
    ∀ m ∈ arrFieldNums key (marshalSlice (rows.map (rowToJson a b c))), 0 ≤ m := by
  intro m hm
  cases h : rows.map (rowToJson a b c) with
  | nil => rw [h] at hm; simp [marshalSlice, arrFieldNums] at hm
  | cons x xs =>
      rw [h] at hm
      have hms : marshalSlice (x :: xs) = JValue.arr (x :: xs) := rfl
      rw [hms] at hm
      obtain ⟨j, hj, hmj⟩ := mem_arrFieldNums key (x :: xs) m hm
      have hj2 : j ∈ rows.map (rowToJson a b c) := h ▸ hj
      obtain ⟨r, _, hr⟩ := List.mem_map.mp hj2
      subst hr
      exact objFieldNums_rowToJson_nonneg key a b c r m hmj

/-- C10: the record types use unsigned price fields, so a JSON insert payload
carrying a negative price fails decoding — each /add endpoint answers 400
with the unmarshal error and the database is returned exactly unchanged — and
every price number in the body of any list response is non-negative. -/
theorem negative_price_rejected_and_listed_prices_nonneg (db : Db) (s : String)
    (n : Int) (hn : n < 0) (hf : db.fault = none) :
    insertTrain db (Except.ok [("train_name", JValue.str s),
        ("train_price", JValue.num n)]) =
      (db, ⟨400, [], some (jmsg "error" (unmarshalNumErr n "Train" "train_price" "uint"))⟩, []) ∧
    insertPlane db (Except.ok [("plane_name", JValue.str s),
        ("plane_price", JValue.num n)]) =
      (db, ⟨400, [], some (jmsg "error" (unmarshalNumErr n "Plane" "plane_price" "uint"))⟩, []) ∧
    insertHistory db (Except.ok [("history_name", JValue.str s),
        ("history_price", JValue.num n)]) =
      (db, ⟨400, [], some (jmsg "error" (unmarshalNumErr n "History" "history_price" "uint"))⟩, []) ∧
    (∀ j, (getAllTrains db).2.1.body = some j →
      ∀ m ∈ arrFieldNums "train_price" j, 0 ≤ m) ∧
    (∀ j, (getAllPlanes db).2.1.body = some j →
      ∀ m ∈ arrFieldNums "plane_price" j, 0 ≤ m) ∧
    (∀ j, (getHistory db).2.1.body = some j →
      ∀ m ∈ arrFieldNums "history_price" j, 0 ≤ m) := by
  refine ⟨?_, ?_, ?_, ?_, ?_, ?_⟩
  · simp [insertTrain, decodeTrain, decodeRecordFields, setStringField, setUintField, hn]
  · simp [insertPlane, decodePlane, decodeRecordFields, setStringField, setUintField, hn]
  · simp [insertHistory, decodeHistory, decodeRecordFields, setStringField, setUintField, hn]
  · intro j hj
    simp [getAllTrains, sqlSelectAll, hf] at hj
    exact hj ▸ marshal_prices_nonneg "train_price" "train_id" "train_name" "train_price" db.trains.rows
  · intro j hj
    simp [getAllPlanes, sqlSelectAll, hf] at hj
    exact hj ▸ marshal_prices_nonneg "plane_price" "plane_id" "plane_name" "plane_price" db.planes.rows
  · intro j hj
    simp [getHistory, sqlSelectAll, hf] at hj
    exact hj ▸ marshal_prices_nonneg "history_price" "history_id" "history_name" "history_price" db.history.rows

/-- Witness for C10: the price -5 on the fresh database. -/
theorem negative_price_rejected_witness :
    (insertTrain db0 (Except.ok [("train_name", JValue.str "Express"),
        ("train_price", JValue.num (-5))]) =
      (db0, ⟨400, [], some (jmsg "error" (unmarshalNumErr (-5) "Train" "train_price" "uint"))⟩, []) ∧
     insertPlane db0 (Except.ok [("plane_name", JValue.str "Express"),
        ("plane_price", JValue.num (-5))]) =
      (db0, ⟨400, [], some (jmsg "error" (unmarshalNumErr (-5) "Plane" "plane_price" "uint"))⟩, []) ∧
     insertHistory db0 (Except.ok [("history_name", JValue.str "Express"),
        ("history_price", JValue.num (-5))]) =
      (db0, ⟨400, [], some (jmsg "error" (unmarshalNumErr (-5) "History" "history_price" "uint"))⟩, []) ∧
     (∀ j, (getAllTrains db0).2.1.body = some j →
       ∀ m ∈ arrFieldNums "train_price" j, 0 ≤ m) ∧
     (∀ j, (getAllPlanes db0).2.1.body = some j →
       ∀ m ∈ arrFieldNums "plane_price" j, 0 ≤ m) ∧
     (∀ j, (getHistory db0).2.1.body = some j →
       ∀ m ∈ arrFieldNums "history_price" j, 0 ≤ m)) :=
  negative_price_rejected_and_listed_prices_nonneg db0 "Express" (-5) (by decide) rfl
